import Mathlib

/-!
Shallow embedding of `src/pipecat_upliftai/tts.py` (class `UpliftHttpTTSService`).

Bytes are modelled as `List Nat`, Python `str` text as `List Char` (so that
slicing `text[:2500]` becomes `List.take 2500`); short identifier-like strings
(voice ids, output formats, error messages) are Lean `String`s.

Each `await` point inside `run_tts`'s `try` block may raise an exception; this
nondeterminism is captured by an `Env` record giving, for every such point,
either its successful result or the exception message `str(e)`.  `run_tts`
becomes a pure function of the adapter settings, the text and the `Env`,
returning the issued request payloads, the yielded frames (in order) and the
messages given to `push_error` (in order).
-/

namespace UpliftTTS

/-- Pipecat frames yielded by `run_tts` (the four kinds it produces). -/
inductive Frame where
  | TTSStartedFrame : Frame
  | TTSAudioRawFrame (audio : List Nat) (sample_rate : Nat) (num_channels : Nat) : Frame
  | TTSStoppedFrame : Frame
  | ErrorFrame (error : String) : Frame
  deriving Repr, DecidableEq

/-- An HTTP response as seen by the adapter: `response.status`,
`await response.text()` and `await response.read()`. -/
structure HttpResponse where
  status : Nat
  body_text : String
  body_bytes : List Nat
  deriving Repr, DecidableEq

/-- Result of one `await`ed step: either a value or a raised exception with
its `str(e)` text. -/
inductive StepResult (α : Type) where
  | ok (value : α) : StepResult α
  | exc (msg : String) : StepResult α
  deriving Repr, DecidableEq

/-- The environment of one `run_tts` call: the outcome of every `await` point
inside the `try` block, in program order.  `ttfbStop i` is the outcome of the
`stop_ttfb_metrics()` call made in loop iteration `i`. -/
structure Env where
  ttfbStart : StepResult Unit
  post : StepResult HttpResponse
  textRead : StepResult String
  read : StepResult (List Nat)
  usage : StepResult Unit
  ttfbStop : Nat → StepResult Unit

/-- The mutable `self._settings` dictionary. -/
structure Settings where
  voice_id : String
  output_format : String
  deriving Repr, DecidableEq

/-- The JSON request body (`payload` in the source; field names as
transmitted). -/
structure Payload where
  text : List Char
  voiceId : String
  outputFormat : String
  deriving Repr, DecidableEq

/-- Observable outcome of one `run_tts` call: every payload handed to
`self._session.post`, every frame yielded, every message passed to
`self.push_error`, each in order. -/
structure RunResult where
  requests : List Payload
  frames : List Frame
  pushed : List String
  deriving Repr, DecidableEq

/-- Truncation `text = text[:2500]` guarded by `if len(text) > 2500` (lines 236-241). -/
def truncated (text : List Char) : List Char :=
  if text.length > 2500 then text.take 2500 else text

/-- The `except Exception as e` handler (lines 301-309): builds
`"TTS generation error: " + str(e)`, pushes it, and yields an `ErrorFrame`
after whatever frames the generator had already yielded. -/
def genError (requests : List Payload) (prev_frames : List Frame) (e : String) : RunResult :=
  let error_message := "TTS generation error: " ++ e
  { requests := requests
    frames := prev_frames ++ [Frame.ErrorFrame error_message]
    pushed := [error_message] }

/-- Python's `str(e)` for the `ValueError` raised by `range(0, n, 0)`. -/
def rangeStepZeroMsg : String := "range() arg 3 must not be zero"

/-- Result of the chunking `for` loop: the audio frames yielded, and whether an
exception escaped it (carrying the frames yielded before the raise). -/
inductive LoopResult where
  | ok (frames : List Frame) : LoopResult
  | exc (frames : List Frame) (msg : String) : LoopResult
  deriving Repr, DecidableEq

/-- The loop `for i in range(0, len(audio_content), CHUNK_SIZE)` (lines
290-297) for `CHUNK_SIZE = m + 1`: each iteration slices
`audio_content[i : i + CHUNK_SIZE]`, breaks on an empty chunk, awaits
`stop_ttfb_metrics()` (outcome `ttfbStop i`), then yields
`TTSAudioRawFrame(chunk, sample_rate, 1)`.  For a positive step the indices
`0, m+1, 2(m+1), ...` walk the list exactly as this take/drop recursion does. -/
def ttsLoop (ttfbStop : Nat → StepResult Unit) (sample_rate m : Nat) :
    Nat → List Nat → LoopResult
  | _, [] => LoopResult.ok []
  | i, b :: rest =>
      let chunk := (b :: rest).take (m + 1)
      if chunk = [] then LoopResult.ok []
      else
        match ttfbStop i with
        | StepResult.exc e => LoopResult.exc [] e
        | StepResult.ok _ =>
            match ttsLoop ttfbStop sample_rate m (i + 1) ((b :: rest).drop (m + 1)) with
            | LoopResult.ok fs =>
                LoopResult.ok (Frame.TTSAudioRawFrame chunk sample_rate 1 :: fs)
            | LoopResult.exc fs e =>
                LoopResult.exc (Frame.TTSAudioRawFrame chunk sample_rate 1 :: fs) e
  termination_by _ l => l.length
  decreasing_by simp [List.drop]; omega

/-- Python's `s.startswith(pre)`: `pre` is a prefix of `s` (stated on the
underlying character lists, which makes it directly computable). -/
def pyStartsWith (s pre : String) : Bool :=
  pre.data.isPrefixOf s.data

/-- The `audio_content` computed at lines 279-286: strip the 44-byte WAV
header exactly when `self._settings["output_format"].startswith("WAV_")`. -/
def audioContent (settings : Settings) (audio_bytes : List Nat) : List Nat :=
  if pyStartsWith settings.output_format "WAV_" then audio_bytes.drop 44
  else audio_bytes

/-- The f-string of line 263:
`f"Uplift HTTP TTS error: {response.status} - {error_text}"`. -/
def httpErrorMessage (status : Nat) (error_text : String) : String :=
  "Uplift HTTP TTS error: " ++ toString status ++ " - " ++ error_text

/-- The `payload` dict of lines 252-256, built from the (already truncated)
local `text`. -/
def payloadOf (settings : Settings) (text : List Char) : Payload :=
  { text := text
    voiceId := settings.voice_id
    outputFormat := settings.output_format }

/-- Model of `run_tts` (lines 224-309).  Program order: truncate; `try`:
`start_ttfb_metrics`; build headers/payload; `session.post`; on non-200 read
the body text, log, `push_error`, yield `ErrorFrame`, return; on 200 `read()`
the bytes, `start_tts_usage_metrics`, yield `TTSStartedFrame`, strip 44 bytes
when the output format starts with `"WAV_"`, chunk by `self.chunk_size`, yield
the audio frames, yield `TTSStoppedFrame`; `except`: dual-path error report. -/
def run_tts (settings : Settings) (sample_rate chunk_size : Nat)
    (text : List Char) (env : Env) : RunResult :=
  let text := truncated text
  match env.ttfbStart with
  | StepResult.exc e => genError [] [] e
  | StepResult.ok _ =>
    let payload : Payload := payloadOf settings text
    match env.post with
    | StepResult.exc e => genError [payload] [] e
    | StepResult.ok response =>
      if response.status ≠ 200 then
        match env.textRead with
        | StepResult.exc e => genError [payload] [] e
        | StepResult.ok error_text =>
          let error_message := httpErrorMessage response.status error_text
          { requests := [payload]
            frames := [Frame.ErrorFrame error_message]
            pushed := [error_message] }
      else
        match env.read with
        | StepResult.exc e => genError [payload] [] e
        | StepResult.ok audio_bytes =>
          match env.usage with
          | StepResult.exc e => genError [payload] [] e
          | StepResult.ok _ =>
            let audio_content := audioContent settings audio_bytes
            match chunk_size with
            | 0 => genError [payload] [Frame.TTSStartedFrame] rangeStepZeroMsg
            | m + 1 =>
              match ttsLoop env.ttfbStop sample_rate m 0 audio_content with
              | LoopResult.ok fs =>
                  { requests := [payload]
                    frames := Frame.TTSStartedFrame :: fs ++ [Frame.TTSStoppedFrame]
                    pushed := [] }
              | LoopResult.exc fs e =>
                  { requests := [payload]
                    frames := Frame.TTSStartedFrame :: fs
                        ++ [Frame.ErrorFrame ("TTS generation error: " ++ e)]
                    pushed := ["TTS generation error: " ++ e] }

/-- Specification-side chunking: consecutive take/drop slices of size `m + 1`. -/
def chunksOf (m : Nat) : List Nat → List (List Nat)
  | [] => []
  | b :: rest => ((b :: rest).take (m + 1)) :: chunksOf m ((b :: rest).drop (m + 1))
  termination_by l => l.length
  decreasing_by simp [List.drop]; omega

/-- The audio bytes carried by a frame, when it is an audio frame. -/
def audioData : Frame → Option (List Nat)
  | Frame.TTSAudioRawFrame a _ _ => some a
  | _ => none

/-- All audio segments yielded by a call, in order. -/
def audioOf (r : RunResult) : List (List Nat) :=
  r.frames.filterMap audioData

/-! ## Constructor, setters and cleanup -/

/-- The pydantic `InputParams` model (lines 64-73): `voice_id` defaults to
`None`, `output_format` defaults to `"WAV_22050_16"`. -/
structure InputParams where
  voice_id : Option String
  output_format : Option String
  deriving Repr, DecidableEq

/-- Value of `UpliftHttpTTSService.InputParams()` with its pydantic field defaults. -/
def InputParams.mkDefault : InputParams :=
  { voice_id := none, output_format := some "WAV_22050_16" }

/-- Python `a or b` for an `Optional[str] a`: `None` and `""` are falsy. -/
def pyOrStr (a : Option String) (b : String) : String :=
  match a with
  | none => b
  | some s => if s = "" then b else s

/-- An aiohttp client session handle: either supplied by the caller or created
internally by the constructor. -/
inductive Session where
  | external (id : Nat) : Session
  | internal : Session
  deriving Repr, DecidableEq

/-- Class constant `AVAILABLE_VOICES` (lines 46-51). -/
def AVAILABLE_VOICES : List String :=
  ["v_8eelc901", "v_kwmp7zxt", "v_yypgzenx", "v_30s70t3a"]

/-- Class constant `AVAILABLE_FORMATS` (lines 54-62). -/
def AVAILABLE_FORMATS : List String :=
  ["WAV_22050_16", "WAV_22050_32", "MP3_22050_32", "MP3_22050_64",
   "MP3_22050_128", "OGG_22050_16", "ULAW_8000_8"]

/-- The adapter's instance state after `__init__`: the stored credential and
endpoint, the effective `InputParams`, the session handle with its ownership
flag, the `_settings` dict, and the voice registered through the base class's
`set_voice` (line 147 / 189). -/
structure AdapterState where
  api_key : String
  base_url : String
  params : InputParams
  session : Option Session
  created_session : Bool
  settings : Settings
  base_voice : String
  sample_rate : Nat
  deriving Repr, DecidableEq

/-- Constructor `__init__` (lines 75-152): raises `ValueError` on a falsy `api_key`;
creates an owned session when none is supplied; computes the effective
settings via `self._params.output_format or output_format` and
`self._params.voice_id or voice_id` with `self._params = params or
InputParams()`; finally registers the voice via `set_voice`. -/
def init (api_key base_url voice_id output_format : String) (sample_rate : Nat)
    (aiohttp_session : Option Session) (params : Option InputParams) :
    Except String AdapterState :=
  if api_key = "" then Except.error "Missing Uplift API key"
  else
    let ps :=
      match params with
      | some p => p
      | none => InputParams.mkDefault
    let sessionAndFlag :=
      match aiohttp_session with
      | some s => (some s, false)
      | none => (some Session.internal, true)
    let final_output_format := pyOrStr ps.output_format output_format
    let settings : Settings :=
      { voice_id := pyOrStr ps.voice_id voice_id
        output_format := final_output_format }
    Except.ok
      { api_key := api_key
        base_url := base_url
        params := ps
        session := sessionAndFlag.1
        created_session := sessionAndFlag.2
        settings := settings
        base_voice := settings.voice_id
        sample_rate := sample_rate }

/-- Setter `set_voice_id` (lines 175-189): updates `_settings["voice_id"]` and calls
the base class's `set_voice` (the unknown-voice check only logs). -/
def set_voice_id (st : AdapterState) (voice_id : String) : AdapterState :=
  { st with
    settings := { st.settings with voice_id := voice_id }
    base_voice := voice_id }

/-- Setter `set_output_format` (lines 191-206): updates `_settings["output_format"]`
only (the unknown-format check only logs). -/
def set_output_format (st : AdapterState) (output_format : String) : AdapterState :=
  { st with settings := { st.settings with output_format := output_format } }

/-- Teardown `cleanup` (lines 216-221): `if self._created_session and self._session:`
close the session and set the reference to `None`.  The returned list holds
the sessions actually closed by this call. -/
def cleanup (st : AdapterState) : AdapterState × List Session :=
  match st.created_session, st.session with
  | true, some s => ({ st with session := none }, [s])
  | _, _ => (st, [])

/-- Runtime setter calls, for stating invariants over every reachable state. -/
inductive TTSOp where
  | setVoiceId (voice_id : String) : TTSOp
  | setOutputFormat (output_format : String) : TTSOp
  deriving Repr, DecidableEq

/-- Apply one setter call. -/
def applyOp (st : AdapterState) : TTSOp → AdapterState
  | TTSOp.setVoiceId v => set_voice_id st v
  | TTSOp.setOutputFormat f => set_output_format st f

/-- Apply a sequence of setter calls in order. -/
def applyOps (st : AdapterState) (ops : List TTSOp) : AdapterState :=
  ops.foldl applyOp st

/-- The call raises an exception with text `e` inside the `try` block (the
disjuncts follow program order: `start_ttfb_metrics`, `session.post`,
`response.text()` on the non-200 branch, `response.read()`,
`start_tts_usage_metrics`, the `range(0, len, 0)` `ValueError` when
`chunk_size = 0`, and `stop_ttfb_metrics()` at the first failing loop
iteration `j`). -/
def RaisesExc (settings : Settings) (chunk_size : Nat) (env : Env) (e : String) : Prop :=
  env.ttfbStart = StepResult.exc e ∨
  (env.ttfbStart = StepResult.ok () ∧ env.post = StepResult.exc e) ∨
  (env.ttfbStart = StepResult.ok () ∧
    ∃ response, env.post = StepResult.ok response ∧ response.status ≠ 200 ∧
      env.textRead = StepResult.exc e) ∨
  (env.ttfbStart = StepResult.ok () ∧
    ∃ response, env.post = StepResult.ok response ∧ response.status = 200 ∧
      env.read = StepResult.exc e) ∨
  (env.ttfbStart = StepResult.ok () ∧
    ∃ response audio_bytes,
      env.post = StepResult.ok response ∧ response.status = 200 ∧
      env.read = StepResult.ok audio_bytes ∧ env.usage = StepResult.exc e) ∨
  (env.ttfbStart = StepResult.ok () ∧
    ∃ response audio_bytes,
      env.post = StepResult.ok response ∧ response.status = 200 ∧
      env.read = StepResult.ok audio_bytes ∧ env.usage = StepResult.ok () ∧
      chunk_size = 0 ∧ e = rangeStepZeroMsg) ∨
  (env.ttfbStart = StepResult.ok () ∧
    ∃ response audio_bytes m j,
      env.post = StepResult.ok response ∧ response.status = 200 ∧
      env.read = StepResult.ok audio_bytes ∧ env.usage = StepResult.ok () ∧
      chunk_size = m + 1 ∧
      j < (chunksOf m (audioContent settings audio_bytes)).length ∧
      env.ttfbStop j = StepResult.exc e ∧
      (∀ k, k < j → env.ttfbStop k = StepResult.ok ()))

/-- The call "succeeds fully": every step of the call succeeds through the
final `yield TTSStoppedFrame` — status 200, body read, usage metrics, a
positive chunk size (so `range` does not raise) and every per-chunk
`stop_ttfb_metrics` call succeeding. -/
def CallSucceeds (settings : Settings) (chunk_size : Nat) (env : Env) : Prop :=
  env.ttfbStart = StepResult.ok () ∧
  ∃ response audio_bytes,
    env.post = StepResult.ok response ∧ response.status = 200 ∧
    env.read = StepResult.ok audio_bytes ∧ env.usage = StepResult.ok () ∧
    ∃ m, chunk_size = m + 1 ∧
      ∀ k, k < (chunksOf m (audioContent settings audio_bytes)).length →
        env.ttfbStop k = StepResult.ok ()


/-! ## Concrete instances for witnesses and counterexamples -/

/-- Default adapter settings as after a default construction. -/
def settings0 : Settings :=
  { voice_id := "v_8eelc901", output_format := "WAV_22050_16" }

/-- A ten-character-free short sample text. -/
def text0 : List Char := ['h', 'i']

/-- A 503 response with a textual body. -/
def resp503 : HttpResponse :=
  { status := 503, body_text := "server overloaded", body_bytes := [] }

/-- An environment whose request yields the 503 response; no step raises. -/
def env503 : Env :=
  { ttfbStart := StepResult.ok ()
    post := StepResult.ok resp503
    textRead := StepResult.ok "server overloaded"
    read := StepResult.ok []
    usage := StepResult.ok ()
    ttfbStop := fun _ => StepResult.ok () }

/-- Fifty sample audio bytes (44-byte WAV header plus 6 payload bytes). -/
def bytes50 : List Nat := List.range 50

/-- A 200 response carrying `bytes50`. -/
def resp200 : HttpResponse :=
  { status := 200, body_text := "", body_bytes := bytes50 }

/-- A fully successful environment delivering `bytes50`. -/
def env200 : Env :=
  { ttfbStart := StepResult.ok ()
    post := StepResult.ok resp200
    textRead := StepResult.ok ""
    read := StepResult.ok bytes50
    usage := StepResult.ok ()
    ttfbStop := fun _ => StepResult.ok () }

/-- Thirty sample audio bytes: shorter than the 44-byte WAV header. -/
def bytes30 : List Nat := List.range 30

/-- A 200 response carrying `bytes30`. -/
def resp200short : HttpResponse :=
  { status := 200, body_text := "", body_bytes := bytes30 }

/-- A fully successful environment delivering `bytes30`. -/
def env200short : Env :=
  { ttfbStart := StepResult.ok ()
    post := StepResult.ok resp200short
    textRead := StepResult.ok ""
    read := StepResult.ok bytes30
    usage := StepResult.ok ()
    ttfbStop := fun _ => StepResult.ok () }

/-- An environment whose `session.post` raises an exception "boom". -/
def envPostExc : Env :=
  { ttfbStart := StepResult.ok ()
    post := StepResult.exc "boom"
    textRead := StepResult.ok ""
    read := StepResult.ok []
    usage := StepResult.ok ()
    ttfbStop := fun _ => StepResult.ok () }

/-- The adapter state produced by a default owned-session construction. -/
def st0 : AdapterState :=
  { api_key := "sk_test"
    base_url := "https://api.upliftai.org/v1/synthesis/text-to-speech"
    params := InputParams.mkDefault
    session := some Session.internal
    created_session := true
    settings := { voice_id := "v_8eelc901", output_format := "WAV_22050_16" }
    base_voice := "v_8eelc901"
    sample_rate := 22050 }

/-! ## Lemmas about chunking -/

theorem flatten_chunksOf (m : Nat) (l : List Nat) : (chunksOf m l).flatten = l := by
  induction l using chunksOf.induct m with
  | case1 => simp [chunksOf]
  | case2 b rest ih =>
    rw [chunksOf]
    simp only [List.flatten_cons, ih, List.take_append_drop]

theorem length_chunksOf (m : Nat) (l : List Nat) :
    (chunksOf m l).length = (l.length + m) / (m + 1) := by
  induction l using chunksOf.induct m with
  | case1 => simp [chunksOf, Nat.div_eq_of_lt]
  | case2 b rest ih =>
    rw [chunksOf]
    simp only [List.length_cons, List.length_drop, ih]
    rcases Nat.lt_or_ge (rest.length + 1) (m + 1) with h | h
    · have h2 : (rest.length + 1 + m) / (m + 1) = 1 :=
        Nat.div_eq_of_lt_le (by omega) (by omega)
      have h3 : (rest.length + 1 - (m + 1) + m) / (m + 1) = 0 :=
        Nat.div_eq_of_lt (by omega)
      rw [h3, h2]
    · have h1 : rest.length + 1 + m = (rest.length + 1 - (m + 1) + m) + (m + 1) := by
        omega
      rw [h1, Nat.add_div_right _ (Nat.succ_pos m)]

theorem ne_nil_of_mem_chunksOf (m : Nat) (l : List Nat) (c : List Nat)
    (hc : c ∈ chunksOf m l) : c ≠ [] := by
  induction l using chunksOf.induct m with
  | case1 => simp [chunksOf] at hc
  | case2 b rest ih =>
    rw [chunksOf] at hc
    rcases List.mem_cons.mp hc with h | h
    · subst h; simp
    · exact ih h

theorem length_le_of_mem_chunksOf (m : Nat) (l : List Nat) (c : List Nat)
    (hc : c ∈ chunksOf m l) : c.length ≤ m + 1 := by
  induction l using chunksOf.induct m with
  | case1 => simp [chunksOf] at hc
  | case2 b rest ih =>
    rw [chunksOf] at hc
    rcases List.mem_cons.mp hc with h | h
    · subst h; simp
    · exact ih h

theorem chunksOf_eq_nil_iff (m : Nat) (l : List Nat) : chunksOf m l = [] ↔ l = [] := by
  cases l with
  | nil => simp [chunksOf]
  | cons b rest => rw [chunksOf]; simp

theorem length_of_mem_dropLast_chunksOf (m : Nat) (l c : List Nat)
    (hc : c ∈ (chunksOf m l).dropLast) : c.length = m + 1 := by
  induction l using chunksOf.induct m with
  | case1 => simp [chunksOf] at hc
  | case2 b rest ih =>
    rw [chunksOf] at hc
    rcases eq_or_ne (chunksOf m ((b :: rest).drop (m + 1))) [] with hnil | hnil
    · rw [hnil] at hc
      simp at hc
    · rw [List.dropLast_cons_of_ne_nil hnil] at hc
      rcases List.mem_cons.mp hc with h | h
      · subst h
        have hd : (b :: rest).drop (m + 1) ≠ [] :=
          fun hd => hnil (by rw [hd]; simp [chunksOf])
        have hlen : m + 1 ≤ (b :: rest).length := by
          by_contra hlt
          exact hd (List.drop_eq_nil_of_le (by omega))
        rw [List.length_take]
        omega
      · exact ih h

/-! ## Lemmas about the chunking loop -/

theorem ttsLoop_ok_of_stops (stop : Nat → StepResult Unit) (sr m : Nat) (l : List Nat)
    (i : Nat) (hok : ∀ k, k < (chunksOf m l).length → stop (i + k) = StepResult.ok ()) :
    ttsLoop stop sr m i l =
      LoopResult.ok ((chunksOf m l).map fun c => Frame.TTSAudioRawFrame c sr 1) := by
  induction l using chunksOf.induct m generalizing i with
  | case1 => simp [ttsLoop, chunksOf]
  | case2 b rest ih =>
    rw [ttsLoop, chunksOf]
    simp only [List.take_succ_cons]
    have h0 := hok 0 (by rw [chunksOf]; simp)
    rw [Nat.add_zero] at h0
    rw [h0, ih (i + 1) fun k hk => by
      rw [show i + 1 + k = i + (k + 1) by omega]
      exact hok (k + 1) (by rw [chunksOf]; simp only [List.length_cons]; omega)]
    simp

theorem ttsLoop_ok_forall_stop (stop : Nat → StepResult Unit) (sr m : Nat)
    (l : List Nat) (i : Nat) (fs : List Frame)
    (hrun : ttsLoop stop sr m i l = LoopResult.ok fs) :
    ∀ k, k < (chunksOf m l).length → stop (i + k) = StepResult.ok () := by
  induction l using chunksOf.induct m generalizing i fs with
  | case1 =>
    intro k hk
    simp [chunksOf] at hk
  | case2 b rest ih =>
    rw [ttsLoop] at hrun
    simp only [List.take_succ_cons, if_neg (List.cons_ne_nil _ _)] at hrun
    rw [chunksOf]
    intro k hk
    cases hstop : stop i with
    | exc e => rw [hstop] at hrun; simp at hrun
    | ok u =>
      rw [hstop] at hrun
      cases hrec : ttsLoop stop sr m (i + 1) ((b :: rest).drop (m + 1)) with
      | exc fs2 e => rw [hrec] at hrun; simp at hrun
      | ok fs2 =>
        cases k with
        | zero => cases u; exact hstop
        | succ k =>
          have hk2 : k < (chunksOf m ((b :: rest).drop (m + 1))).length := by
            simp only [List.length_cons] at hk
            omega
          have := ih (i + 1) fs2 hrec k hk2
          rw [show i + (k + 1) = i + 1 + k by omega]
          exact this

theorem ttsLoop_first_exc (stop : Nat → StepResult Unit) (sr m : Nat) (l : List Nat)
    (i j : Nat) (e : String) (hj : j < (chunksOf m l).length)
    (hexc : stop (i + j) = StepResult.exc e)
    (hok : ∀ k, k < j → stop (i + k) = StepResult.ok ()) :
    ttsLoop stop sr m i l =
      LoopResult.exc
        (((chunksOf m l).take j).map fun c => Frame.TTSAudioRawFrame c sr 1) e := by
  induction l using chunksOf.induct m generalizing i j with
  | case1 => simp [chunksOf] at hj
  | case2 b rest ih =>
    rw [ttsLoop]
    simp only [List.take_succ_cons, if_neg (List.cons_ne_nil _ _)]
    rw [chunksOf] at hj ⊢
    cases j with
    | zero =>
      rw [Nat.add_zero] at hexc
      rw [hexc]
      simp
    | succ j =>
      have h0 := hok 0 (Nat.succ_pos j)
      rw [Nat.add_zero] at h0
      rw [h0]
      have hrec := ih (i + 1) j
        (by simp only [List.length_cons] at hj; omega)
        (by rw [show i + 1 + j = i + (j + 1) by omega]; exact hexc)
        (fun k hk => by
          rw [show i + 1 + k = i + (k + 1) by omega]
          exact hok (k + 1) (by omega))
      rw [hrec]
      simp [List.take_succ_cons]

/-! ## Path characterizations of run_tts -/

theorem run_tts_non200 (settings : Settings) (sr cs : Nat) (text : List Char)
    (env : Env) (response : HttpResponse) (error_text : String)
    (h1 : env.ttfbStart = StepResult.ok ()) (h2 : env.post = StepResult.ok response)
    (h3 : response.status ≠ 200) (h4 : env.textRead = StepResult.ok error_text) :
    run_tts settings sr cs text env =
      { requests := [payloadOf settings (truncated text)]
        frames := [Frame.ErrorFrame (httpErrorMessage response.status error_text)]
        pushed := [httpErrorMessage response.status error_text] } := by
  simp only [run_tts, h1, h2, h4, h3, if_pos, ne_eq, not_false_iff, ite_true]

theorem run_tts_success (settings : Settings) (sr m : Nat) (text : List Char)
    (env : Env) (response : HttpResponse) (audio_bytes : List Nat)
    (h1 : env.ttfbStart = StepResult.ok ()) (h2 : env.post = StepResult.ok response)
    (h3 : response.status = 200) (h4 : env.read = StepResult.ok audio_bytes)
    (h5 : env.usage = StepResult.ok ())
    (h6 : ∀ k, k < (chunksOf m (audioContent settings audio_bytes)).length →
      env.ttfbStop k = StepResult.ok ()) :
    run_tts settings sr (m + 1) text env =
      { requests := [payloadOf settings (truncated text)]
        frames := Frame.TTSStartedFrame ::
          ((chunksOf m (audioContent settings audio_bytes)).map
            fun c => Frame.TTSAudioRawFrame c sr 1) ++ [Frame.TTSStoppedFrame]
        pushed := [] } := by
  have hloop := ttsLoop_ok_of_stops env.ttfbStop sr m (audioContent settings audio_bytes) 0
    (fun k hk => by rw [Nat.zero_add]; exact h6 k hk)
  simp only [run_tts, h1, h2, h3, h4, h5, hloop, ne_eq, not_true_eq_false, ite_false]

theorem getLast?_cons_concat (a e : Frame) (xs : List Frame) :
    (a :: xs ++ [e]).getLast? = some e := by
  rw [show a :: xs ++ [e] = (a :: xs) ++ [e] from rfl, List.getLast?_concat]

/-- C7: any exception raised inside run_tts's try block is caught at the
operation boundary, reported both through push_error and as a yielded error
event with message "TTS generation error: " followed by the exception text,
and the stopped marker is never yielded. -/
theorem run_tts_exception_dual_report (settings : Settings) (sr cs : Nat)
    (text : List Char) (env : Env) (e : String)
    (h : RaisesExc settings cs env e) :
    (run_tts settings sr cs text env).pushed = ["TTS generation error: " ++ e] ∧
    (run_tts settings sr cs text env).frames.getLast? =
      some (Frame.ErrorFrame ("TTS generation error: " ++ e)) ∧
    Frame.TTSStoppedFrame ∉ (run_tts settings sr cs text env).frames := by
  rcases h with h1 | ⟨h1, h2⟩ | ⟨h1, response, h2, h3, h4⟩ | ⟨h1, response, h2, h3, h4⟩ |
    ⟨h1, response, audio_bytes, h2, h3, h4, h5⟩ |
    ⟨h1, response, audio_bytes, h2, h3, h4, h5, h6, h7⟩ |
    ⟨h1, response, audio_bytes, m, j, h2, h3, h4, h5, h6, h7, h8, h9⟩
  · simp [run_tts, h1, genError]
  · simp [run_tts, h1, h2, genError]
  · simp [run_tts, h1, h2, h3, h4, genError]
  · simp [run_tts, h1, h2, h3, h4, genError]
  · simp [run_tts, h1, h2, h3, h4, h5, genError]
  · subst h6; subst h7
    simp [run_tts, h1, h2, h3, h4, h5, genError]
  · subst h6
    have hloop := ttsLoop_first_exc env.ttfbStop sr m
      (audioContent settings audio_bytes) 0 j e h7
      (by rw [Nat.zero_add]; exact h8)
      (fun k hk => by rw [Nat.zero_add]; exact h9 k hk)
    have hres : run_tts settings sr (m + 1) text env =
        { requests := [payloadOf settings (truncated text)]
          frames := Frame.TTSStartedFrame ::
            (((chunksOf m (audioContent settings audio_bytes)).take j).map
              fun c => Frame.TTSAudioRawFrame c sr 1)
            ++ [Frame.ErrorFrame ("TTS generation error: " ++ e)]
          pushed := ["TTS generation error: " ++ e] } := by
      simp only [run_tts, h1, h2, h3, h4, h5, hloop, ne_eq, not_true_eq_false, ite_false]
    rw [hres]
    refine ⟨rfl, getLast?_cons_concat _ _ _, ?_⟩
    intro hmem
    rcases List.mem_cons.mp hmem with hc | hc
    · exact Frame.noConfusion hc
    · rcases List.mem_append.mp hc with hc2 | hc2
      · rcases List.mem_map.mp hc2 with ⟨c, _, hc3⟩
        exact Frame.noConfusion hc3
      · exact Frame.noConfusion (List.mem_singleton.mp hc2)

theorem callSucceeds_ttfbStart (settings : Settings) (cs : Nat) (env : Env)
    (h : CallSucceeds settings cs env) : env.ttfbStart = StepResult.ok () := h.1

theorem callSucceeds_stops (settings : Settings) (env : Env) (m : Nat)
    (audio_bytes : List Nat) (h : CallSucceeds settings (m + 1) env)
    (hread : env.read = StepResult.ok audio_bytes) :
    ∀ k, k < (chunksOf m (audioContent settings audio_bytes)).length →
      env.ttfbStop k = StepResult.ok () := by
  obtain ⟨-, r', b', -, -, hr, -, m', hcs', hst⟩ := h
  rw [hread] at hr
  injection hr with hb
  subst hb
  have hm : m' = m := by omega
  subst hm
  exact hst

/-- C1 (amended): the started marker, when yielded at all, is the first event;
and the stopped marker is the last event if and only if the call succeeds
fully.  (On a non-200 response or an exception raised before the body is read,
no started marker is yielded at all: the error event is the only event.) -/
theorem run_tts_markers (settings : Settings) (sr cs : Nat) (text : List Char)
    (env : Env) :
    (Frame.TTSStartedFrame ∈ (run_tts settings sr cs text env).frames →
      (run_tts settings sr cs text env).frames.head? = some Frame.TTSStartedFrame) ∧
    ((run_tts settings sr cs text env).frames.getLast? = some Frame.TTSStoppedFrame ↔
      CallSucceeds settings cs env) := by
  cases h1 : env.ttfbStart with
  | exc e =>
    have hres : run_tts settings sr cs text env = genError [] [] e := by
      simp only [run_tts, h1]
    rw [hres]
    refine ⟨fun hmem => by simp [genError] at hmem, ?_, ?_⟩
    · intro hlast; simp [genError] at hlast
    · intro hc; rw [hc.1] at h1; exact StepResult.noConfusion h1
  | ok u =>
    cases u
    cases h2 : env.post with
    | exc e =>
      have hres : run_tts settings sr cs text env =
          genError [payloadOf settings (truncated text)] [] e := by
        simp only [run_tts, h1, h2]
      rw [hres]
      refine ⟨fun hmem => by simp [genError] at hmem, ?_, ?_⟩
      · intro hlast; simp [genError] at hlast
      · rintro ⟨-, response, audio_bytes, hpost, -⟩
        rw [h2] at hpost; exact StepResult.noConfusion hpost
    | ok response =>
      by_cases h3 : response.status = 200
      · cases h4 : env.read with
        | exc e =>
          have hres : run_tts settings sr cs text env =
              genError [payloadOf settings (truncated text)] [] e := by
            simp only [run_tts, h1, h2, h3, h4, ne_eq, not_true_eq_false, ite_false]
          rw [hres]
          refine ⟨fun hmem => by simp [genError] at hmem, ?_, ?_⟩
          · intro hlast; simp [genError] at hlast
          · rintro ⟨-, response', audio_bytes, hpost, -, hread, -⟩
            rw [h2] at hpost
            cases hpost
            rw [h4] at hread; exact StepResult.noConfusion hread
        | ok audio_bytes =>
          cases h5 : env.usage with
          | exc e =>
            have hres : run_tts settings sr cs text env =
                genError [payloadOf settings (truncated text)] [] e := by
              simp only [run_tts, h1, h2, h3, h4, h5, ne_eq, not_true_eq_false, ite_false]
            rw [hres]
            refine ⟨fun hmem => by simp [genError] at hmem, ?_, ?_⟩
            · intro hlast; simp [genError] at hlast
            · rintro ⟨-, response', audio_bytes', hpost, -, hread, husage, -⟩
              rw [h5] at husage; exact StepResult.noConfusion husage
          | ok u =>
            cases u
            cases cs with
            | zero =>
              have hres : run_tts settings sr 0 text env =
                  genError [payloadOf settings (truncated text)]
                    [Frame.TTSStartedFrame] rangeStepZeroMsg := by
                simp only [run_tts, h1, h2, h3, h4, h5, ne_eq, not_true_eq_false,
                  ite_false]
              rw [hres]
              refine ⟨fun _ => rfl, ?_, ?_⟩
              · intro hlast; simp [genError] at hlast
              · rintro ⟨-, response', audio_bytes', -, -, -, -, m', hcs, -⟩
                exact Nat.noConfusion hcs
            | succ m =>
              cases hloop : ttsLoop env.ttfbStop sr m 0 (audioContent settings audio_bytes) with
              | ok fs =>
                have hres : run_tts settings sr (m + 1) text env =
                    { requests := [payloadOf settings (truncated text)]
                      frames := Frame.TTSStartedFrame :: fs ++ [Frame.TTSStoppedFrame]
                      pushed := [] } := by
                  simp only [run_tts, h1, h2, h3, h4, h5, hloop, ne_eq,
                    not_true_eq_false, ite_false]
                rw [hres]
                refine ⟨fun _ => rfl, ?_, ?_⟩
                · intro _
                  refine ⟨h1, response, audio_bytes, h2, h3, h4, h5, m, rfl, ?_⟩
                  intro k hk
                  have := ttsLoop_ok_forall_stop env.ttfbStop sr m
                    (audioContent settings audio_bytes) 0 fs hloop k hk
                  rwa [Nat.zero_add] at this
                · intro _
                  exact getLast?_cons_concat _ _ _
              | exc fs e =>
                have hres : run_tts settings sr (m + 1) text env =
                    { requests := [payloadOf settings (truncated text)]
                      frames := Frame.TTSStartedFrame :: fs
                          ++ [Frame.ErrorFrame ("TTS generation error: " ++ e)]
                      pushed := ["TTS generation error: " ++ e] } := by
                  simp only [run_tts, h1, h2, h3, h4, h5, hloop, ne_eq,
                    not_true_eq_false, ite_false]
                rw [hres]
                refine ⟨fun _ => rfl, ?_, ?_⟩
                · intro hlast
                  rw [getLast?_cons_concat] at hlast
                  cases hlast
                · intro hc
                  have hstops := callSucceeds_stops settings env m audio_bytes hc h4
                  have := ttsLoop_ok_of_stops env.ttfbStop sr m
                    (audioContent settings audio_bytes) 0
                    (fun k hk => by rw [Nat.zero_add]; exact hstops k hk)
                  rw [hloop] at this
                  exact LoopResult.noConfusion this
      · cases h4 : env.textRead with
        | exc e =>
          have hres : run_tts settings sr cs text env =
              genError [payloadOf settings (truncated text)] [] e := by
            simp only [run_tts, h1, h2, h3, h4, ne_eq, not_false_iff, ite_true]
          rw [hres]
          refine ⟨fun hmem => by simp [genError] at hmem, ?_, ?_⟩
          · intro hlast; simp [genError] at hlast
          · rintro ⟨-, response', audio_bytes', hpost, hstat, -⟩
            rw [h2] at hpost
            cases hpost
            exact absurd hstat h3
        | ok error_text =>
          have hres : run_tts settings sr cs text env =
              { requests := [payloadOf settings (truncated text)]
                frames := [Frame.ErrorFrame (httpErrorMessage response.status error_text)]
                pushed := [httpErrorMessage response.status error_text] } := by
            simp only [run_tts, h1, h2, h3, h4, ne_eq, not_false_iff, ite_true]
          rw [hres]
          refine ⟨fun hmem => by simp at hmem, ?_, ?_⟩
          · intro hlast; simp at hlast
          · rintro ⟨-, response', audio_bytes', hpost, hstat, -⟩
            rw [h2] at hpost
            cases hpost
            exact absurd hstat h3

/-! ## Helpers for the remaining claims -/

theorem run_tts_requests (settings : Settings) (sr cs : Nat) (text : List Char)
    (env : Env) :
    (run_tts settings sr cs text env).requests = [] ∨
    (run_tts settings sr cs text env).requests =
      [payloadOf settings (truncated text)] := by
  cases h1 : env.ttfbStart with
  | exc e => left; simp [run_tts, h1, genError]
  | ok u =>
    cases u
    right
    cases h2 : env.post with
    | exc e => simp [run_tts, h1, h2, genError]
    | ok response =>
      by_cases h3 : response.status = 200
      · cases h4 : env.read with
        | exc e => simp [run_tts, h1, h2, h3, h4, genError]
        | ok audio_bytes =>
          cases h5 : env.usage with
          | exc e => simp [run_tts, h1, h2, h3, h4, h5, genError]
          | ok u =>
            cases u
            cases cs with
            | zero => simp [run_tts, h1, h2, h3, h4, h5, genError]
            | succ m =>
              cases hloop : ttsLoop env.ttfbStop sr m 0 (audioContent settings audio_bytes) with
              | ok fs => simp [run_tts, h1, h2, h3, h4, h5, hloop]
              | exc fs e => simp [run_tts, h1, h2, h3, h4, h5, hloop]
      · cases h4 : env.textRead with
        | exc e => simp [run_tts, h1, h2, h3, h4, genError]
        | ok error_text => simp [run_tts, h1, h2, h3, h4]

theorem audioOf_mk (rq : List Payload) (pu : List String) (sr : Nat)
    (cs : List (List Nat)) (tail : Frame) (htail : audioData tail = none) :
    audioOf
      { requests := rq
        frames := Frame.TTSStartedFrame ::
          (cs.map fun c => Frame.TTSAudioRawFrame c sr 1) ++ [tail]
        pushed := pu } = cs := by
  have hcomp : (audioData ∘ fun c : List Nat => Frame.TTSAudioRawFrame c sr 1) = some := rfl
  simp [audioOf, List.filterMap_cons, List.filterMap_append, List.filterMap_map,
    hcomp, htail, List.filterMap_some]
  rfl

theorem flatten_decomp (L : List (List Nat)) (c : List Nat) (hc : c ∈ L) :
    ∃ pre suf : List Nat, L.flatten = pre ++ c ++ suf := by
  induction L with
  | nil => cases hc
  | cons hd tl ih =>
    rcases List.mem_cons.mp hc with rfl | hmem
    · exact ⟨[], tl.flatten, by simp⟩
    · rcases ih hmem with ⟨pre, suf, hps⟩
      exact ⟨hd ++ pre, suf, by simp [hps, List.append_assoc]⟩

/-! ## Claim theorems -/

/-- C2: on a non-200 response, the yielded events are exactly one error frame
(no audio, no stopped marker), push_error receives the same message, and the
message embeds the status code and the response body text. -/
theorem run_tts_non200_dual_error (settings : Settings) (sr cs : Nat)
    (text : List Char) (env : Env) (response : HttpResponse) (error_text : String)
    (h1 : env.ttfbStart = StepResult.ok ()) (h2 : env.post = StepResult.ok response)
    (h3 : response.status ≠ 200) (h4 : env.textRead = StepResult.ok error_text) :
    (run_tts settings sr cs text env).frames =
      [Frame.ErrorFrame (httpErrorMessage response.status error_text)] ∧
    (run_tts settings sr cs text env).pushed =
      [httpErrorMessage response.status error_text] ∧
    (∃ pre suf : String,
      httpErrorMessage response.status error_text =
        pre ++ toString response.status ++ suf) ∧
    (∃ pre : String,
      httpErrorMessage response.status error_text = pre ++ error_text) := by
  have hres := run_tts_non200 settings sr cs text env response error_text h1 h2 h3 h4
  rw [hres]
  refine ⟨rfl, rfl,
    ⟨"Uplift HTTP TTS error: ", " - " ++ error_text, ?_⟩,
    ⟨"Uplift HTTP TTS error: " ++ toString response.status ++ " - ", rfl⟩⟩
  simp [httpErrorMessage, String.append_assoc]

/-- C4: the text field of every transmitted JSON body is the input truncated
to its first min(len, 2500) characters: unchanged when len ≤ 2500, exactly the
first 2500 characters (length 2500) otherwise. -/
theorem run_tts_request_truncation (settings : Settings) (sr cs : Nat)
    (text : List Char) (env : Env) (p : Payload)
    (hp : p ∈ (run_tts settings sr cs text env).requests) :
    (text.length ≤ 2500 → p.text = text) ∧
    (text.length > 2500 → p.text.length = 2500 ∧ p.text = text.take 2500) := by
  rcases run_tts_requests settings sr cs text env with h | h
  · rw [h] at hp
    exact absurd hp (List.not_mem_nil p)
  · rw [h] at hp
    have hpeq := List.mem_singleton.mp hp
    subst hpeq
    constructor
    · intro hle
      simp [payloadOf, truncated, Nat.not_lt.mpr hle]
    · intro hgt
      refine ⟨?_, by simp [payloadOf, truncated, hgt]⟩
      simp [payloadOf, truncated, hgt, List.length_take]
      omega

/-- C5: on a successful (status-200) call, concatenating the yielded audio
segments in order reproduces the response bytes minus the 44-byte header when
the output format starts with WAV_, and the full response bytes otherwise;
every segment is a contiguous block of that payload. -/
theorem run_tts_audio_concat (settings : Settings) (sr m : Nat) (text : List Char)
    (env : Env) (response : HttpResponse) (audio_bytes : List Nat)
    (h1 : env.ttfbStart = StepResult.ok ()) (h2 : env.post = StepResult.ok response)
    (h3 : response.status = 200) (h4 : env.read = StepResult.ok audio_bytes)
    (h5 : env.usage = StepResult.ok ())
    (h6 : ∀ k, k < (chunksOf m (audioContent settings audio_bytes)).length →
      env.ttfbStop k = StepResult.ok ()) :
    (pyStartsWith settings.output_format "WAV_" = true →
      (audioOf (run_tts settings sr (m + 1) text env)).flatten = audio_bytes.drop 44) ∧
    (pyStartsWith settings.output_format "WAV_" = false →
      (audioOf (run_tts settings sr (m + 1) text env)).flatten = audio_bytes) ∧
    (∀ seg ∈ audioOf (run_tts settings sr (m + 1) text env),
      ∃ pre suf : List Nat, audioContent settings audio_bytes = pre ++ seg ++ suf) := by
  have hres := run_tts_success settings sr m text env response audio_bytes h1 h2 h3 h4 h5 h6
  have haudio : audioOf (run_tts settings sr (m + 1) text env) =
      chunksOf m (audioContent settings audio_bytes) := by
    rw [hres]
    exact audioOf_mk _ _ _ _ _ rfl
  rw [haudio]
  refine ⟨?_, ?_, ?_⟩
  · intro hwav
    rw [flatten_chunksOf]
    simp [audioContent, hwav]
  · intro hnot
    rw [flatten_chunksOf]
    simp [audioContent, hnot]
  · intro seg hseg
    have := flatten_decomp (chunksOf m (audioContent settings audio_bytes)) seg hseg
    rwa [flatten_chunksOf] at this

/-- C6: on a successful call with non-empty audio content and chunk size
N = m + 1 > 0, exactly ceil(len/N) segments are yielded, in order and covering
every byte exactly once; every segment except possibly the last has length
exactly N, and no segment is empty. -/
theorem run_tts_chunk_segments (settings : Settings) (sr m : Nat) (text : List Char)
    (env : Env) (response : HttpResponse) (audio_bytes : List Nat)
    (h1 : env.ttfbStart = StepResult.ok ()) (h2 : env.post = StepResult.ok response)
    (h3 : response.status = 200) (h4 : env.read = StepResult.ok audio_bytes)
    (h5 : env.usage = StepResult.ok ())
    (h6 : ∀ k, k < (chunksOf m (audioContent settings audio_bytes)).length →
      env.ttfbStop k = StepResult.ok ())
    (_hne : audioContent settings audio_bytes ≠ []) :
    (audioOf (run_tts settings sr (m + 1) text env)).length =
      ((audioContent settings audio_bytes).length + (m + 1) - 1) / (m + 1) ∧
    (∀ seg ∈ (audioOf (run_tts settings sr (m + 1) text env)).dropLast,
      seg.length = m + 1) ∧
    (∀ seg ∈ audioOf (run_tts settings sr (m + 1) text env),
      seg ≠ [] ∧ seg.length ≤ m + 1) ∧
    (audioOf (run_tts settings sr (m + 1) text env)).flatten =
      audioContent settings audio_bytes := by
  have hres := run_tts_success settings sr m text env response audio_bytes h1 h2 h3 h4 h5 h6
  have haudio : audioOf (run_tts settings sr (m + 1) text env) =
      chunksOf m (audioContent settings audio_bytes) := by
    rw [hres]
    exact audioOf_mk _ _ _ _ _ rfl
  rw [haudio]
  refine ⟨?_, ?_, ?_, flatten_chunksOf m _⟩
  · rw [length_chunksOf]
    have harith : (audioContent settings audio_bytes).length + (m + 1) - 1 =
        (audioContent settings audio_bytes).length + m := by omega
    rw [harith]
  · intro seg hseg
    exact length_of_mem_dropLast_chunksOf m _ seg hseg
  · intro seg hseg
    exact ⟨ne_nil_of_mem_chunksOf m _ seg hseg, length_le_of_mem_chunksOf m _ seg hseg⟩

/-- C10: on a successful call whose format starts with WAV_ and whose body has
at most 44 bytes, the yielded events are exactly the started marker followed by
the stopped marker — no audio and no error. -/
theorem run_tts_short_wav_markers_only (settings : Settings) (sr m : Nat)
    (text : List Char) (env : Env) (response : HttpResponse) (audio_bytes : List Nat)
    (h1 : env.ttfbStart = StepResult.ok ()) (h2 : env.post = StepResult.ok response)
    (h3 : response.status = 200) (h4 : env.read = StepResult.ok audio_bytes)
    (h5 : env.usage = StepResult.ok ())
    (hwav : pyStartsWith settings.output_format "WAV_" = true)
    (hlen : audio_bytes.length ≤ 44) :
    (run_tts settings sr (m + 1) text env).frames =
      [Frame.TTSStartedFrame, Frame.TTSStoppedFrame] ∧
    (run_tts settings sr (m + 1) text env).pushed = [] := by
  have hcontent : audioContent settings audio_bytes = [] := by
    simp [audioContent, hwav, List.drop_eq_nil_of_le hlen]
  have h6 : ∀ k, k < (chunksOf m (audioContent settings audio_bytes)).length →
      env.ttfbStop k = StepResult.ok () := by
    intro k hk
    rw [hcontent] at hk
    simp [chunksOf] at hk
  have hres := run_tts_success settings sr m text env response audio_bytes h1 h2 h3 h4 h5 h6
  rw [hres, hcontent]
  constructor
  · simp [chunksOf]
  · rfl

theorem init_voice_eq (api_key base_url voice_id output_format : String)
    (sample_rate : Nat) (sess : Option Session) (params : Option InputParams)
    (st : AdapterState)
    (hinit : init api_key base_url voice_id output_format sample_rate sess params =
      Except.ok st) : st.settings.voice_id = st.base_voice := by
  unfold init at hinit
  split at hinit
  · exact Except.noConfusion hinit
  · injection hinit with h
    subst h
    rfl

theorem applyOps_voice_eq (st : AdapterState)
    (h : st.settings.voice_id = st.base_voice) (ops : List TTSOp) :
    (applyOps st ops).settings.voice_id = (applyOps st ops).base_voice := by
  induction ops generalizing st with
  | nil => exact h
  | cons op rest ih =>
    apply ih
    cases op <;> simp [applyOps, applyOp, set_voice_id, set_output_format, h]

/-- C3 (evaluation at the failing input): constructing with
output_format = "MP3_22050_32" and no params object records "WAV_22050_16" as
the effective output format — the constructor argument is ignored, because
InputParams's output_format field defaults to "WAV_22050_16" rather than None
and "params or InputParams()" therefore always supplies a truthy override. -/
theorem init_output_format_ignores_ctor_arg :
    ∃ st : AdapterState,
      init "sk_test" "https://api.upliftai.org/v1/synthesis/text-to-speech"
        "v_8eelc901" "MP3_22050_32" 22050 none none = Except.ok st ∧
      st.settings.output_format = "WAV_22050_16" ∧
      st.settings.output_format ≠ "MP3_22050_32" := by
  refine ⟨_, rfl, rfl, by decide⟩

/-- C8: cleanup closes the session exactly when it is internally owned and the
reference is still set, clearing the reference; it never closes a borrowed
session; and a second consecutive call performs no close and changes
nothing. -/
theorem cleanup_idempotent_safe (st : AdapterState) :
    (st.created_session = true → ∀ s, st.session = some s →
      cleanup st = ({ st with session := none }, [s])) ∧
    (st.created_session = false → cleanup st = (st, [])) ∧
    (st.session = none → cleanup st = (st, [])) ∧
    cleanup (cleanup st).1 = ((cleanup st).1, []) := by
  cases hcs : st.created_session with
  | false =>
    cases hs : st.session with
    | none => simp [cleanup, hcs, hs]
    | some s => simp [cleanup, hcs, hs]
  | true =>
    cases hs : st.session with
    | none => simp [cleanup, hcs, hs]
    | some s => simp [cleanup, hcs, hs]

/-- C9: after construction and any sequence of setter calls, the voice id in
the settings record equals the voice registered through the base class; and
set_output_format never changes the base-class voice registration nor the
stored voice id. -/
theorem voice_settings_consistent (api_key base_url voice_id output_format : String)
    (sample_rate : Nat) (sess : Option Session) (params : Option InputParams)
    (st : AdapterState)
    (hinit : init api_key base_url voice_id output_format sample_rate sess params =
      Except.ok st) (ops : List TTSOp) :
    (applyOps st ops).settings.voice_id = (applyOps st ops).base_voice ∧
    (∀ st' : AdapterState, ∀ f : String,
      (set_output_format st' f).base_voice = st'.base_voice ∧
      (set_output_format st' f).settings.voice_id = st'.settings.voice_id) := by
  refine ⟨applyOps_voice_eq st
    (init_voice_eq api_key base_url voice_id output_format sample_rate sess params
      st hinit) ops, ?_⟩
  intro st' f
  exact ⟨rfl, rfl⟩

/-! ## Counterexample and witnesses -/

/-- C1 counterexample: on a 503 response the HTTP request is issued, yet the
first (and only) yielded event is the error frame — the started marker is not
the first event and is in fact never yielded. -/
theorem started_not_first_on_503 :
    (run_tts settings0 22050 4096 text0 env503).requests ≠ [] ∧
    (run_tts settings0 22050 4096 text0 env503).frames.head? ≠
      some Frame.TTSStartedFrame ∧
    Frame.TTSStartedFrame ∉ (run_tts settings0 22050 4096 text0 env503).frames := by
  refine ⟨?_, ?_, ?_⟩ <;> decide

/-- Witness for C1's amended theorem at a concrete fully successful call. -/
theorem run_tts_markers_witness :
    (run_tts settings0 22050 4 text0 env200).frames.getLast? =
      some Frame.TTSStoppedFrame :=
  (run_tts_markers settings0 22050 4 text0 env200).2.mpr
    ⟨rfl, resp200, bytes50, rfl, rfl, rfl, rfl, 3, rfl, fun _ _ => rfl⟩

/-- Witness for C2 at the spec's 503 / "server overloaded" scenario. -/
theorem run_tts_non200_dual_error_witness :
    (run_tts settings0 22050 4096 text0 env503).frames =
      [Frame.ErrorFrame (httpErrorMessage 503 "server overloaded")] ∧
    (run_tts settings0 22050 4096 text0 env503).pushed =
      [httpErrorMessage 503 "server overloaded"] ∧
    (∃ pre suf : String,
      httpErrorMessage 503 "server overloaded" =
        pre ++ toString (503 : Nat) ++ suf) ∧
    (∃ pre : String,
      httpErrorMessage 503 "server overloaded" = pre ++ "server overloaded") :=
  run_tts_non200_dual_error settings0 22050 4096 text0 env503 resp503
    "server overloaded" rfl rfl (by decide) rfl

/-- Witness for C4 at a concrete short text. -/
theorem run_tts_request_truncation_witness :
    (text0.length ≤ 2500 → (payloadOf settings0 (truncated text0)).text = text0) ∧
    (text0.length > 2500 →
      (payloadOf settings0 (truncated text0)).text.length = 2500 ∧
      (payloadOf settings0 (truncated text0)).text = text0.take 2500) :=
  run_tts_request_truncation settings0 22050 4096 text0 env503
    (payloadOf settings0 (truncated text0)) (by decide)

/-- Witness for C5 at a concrete 50-byte WAV response with chunk size 4. -/
theorem run_tts_audio_concat_witness :
    (pyStartsWith settings0.output_format "WAV_" = true →
      (audioOf (run_tts settings0 22050 (3 + 1) text0 env200)).flatten =
        bytes50.drop 44) ∧
    (pyStartsWith settings0.output_format "WAV_" = false →
      (audioOf (run_tts settings0 22050 (3 + 1) text0 env200)).flatten = bytes50) ∧
    (∀ seg ∈ audioOf (run_tts settings0 22050 (3 + 1) text0 env200),
      ∃ pre suf : List Nat, audioContent settings0 bytes50 = pre ++ seg ++ suf) :=
  run_tts_audio_concat settings0 22050 3 text0 env200 resp200 bytes50
    rfl rfl rfl rfl rfl (fun _ _ => rfl)

/-- Witness for C6 at the same concrete call (6 content bytes, chunk size 4). -/
theorem run_tts_chunk_segments_witness :
    (audioOf (run_tts settings0 22050 (3 + 1) text0 env200)).length =
      ((audioContent settings0 bytes50).length + (3 + 1) - 1) / (3 + 1) ∧
    (∀ seg ∈ (audioOf (run_tts settings0 22050 (3 + 1) text0 env200)).dropLast,
      seg.length = 3 + 1) ∧
    (∀ seg ∈ audioOf (run_tts settings0 22050 (3 + 1) text0 env200),
      seg ≠ [] ∧ seg.length ≤ 3 + 1) ∧
    (audioOf (run_tts settings0 22050 (3 + 1) text0 env200)).flatten =
      audioContent settings0 bytes50 :=
  run_tts_chunk_segments settings0 22050 3 text0 env200 resp200 bytes50
    rfl rfl rfl rfl rfl (fun _ _ => rfl) (by decide)

/-- Witness for C7 at an exception raised by session.post. -/
theorem run_tts_exception_dual_report_witness :
    (run_tts settings0 22050 4096 text0 envPostExc).pushed =
      ["TTS generation error: " ++ "boom"] ∧
    (run_tts settings0 22050 4096 text0 envPostExc).frames.getLast? =
      some (Frame.ErrorFrame ("TTS generation error: " ++ "boom")) ∧
    Frame.TTSStoppedFrame ∉ (run_tts settings0 22050 4096 text0 envPostExc).frames :=
  run_tts_exception_dual_report settings0 22050 4096 text0 envPostExc "boom"
    (Or.inr (Or.inl ⟨rfl, rfl⟩))

/-- Witness for C8 at a concrete owned-session state. -/
theorem cleanup_idempotent_safe_witness :
    (st0.created_session = true → ∀ s, st0.session = some s →
      cleanup st0 = ({ st0 with session := none }, [s])) ∧
    (st0.created_session = false → cleanup st0 = (st0, [])) ∧
    (st0.session = none → cleanup st0 = (st0, [])) ∧
    cleanup (cleanup st0).1 = ((cleanup st0).1, []) :=
  cleanup_idempotent_safe st0

/-- Witness for C9 at a concrete construction followed by two setter calls. -/
theorem voice_settings_consistent_witness :
    (applyOps st0
      [TTSOp.setVoiceId "v_kwmp7zxt",
       TTSOp.setOutputFormat "MP3_22050_64"]).settings.voice_id =
    (applyOps st0
      [TTSOp.setVoiceId "v_kwmp7zxt",
       TTSOp.setOutputFormat "MP3_22050_64"]).base_voice ∧
    (∀ st' : AdapterState, ∀ f : String,
      (set_output_format st' f).base_voice = st'.base_voice ∧
      (set_output_format st' f).settings.voice_id = st'.settings.voice_id) :=
  voice_settings_consistent "sk_test"
    "https://api.upliftai.org/v1/synthesis/text-to-speech"
    "v_8eelc901" "WAV_22050_16" 22050 none none st0 rfl
    [TTSOp.setVoiceId "v_kwmp7zxt", TTSOp.setOutputFormat "MP3_22050_64"]

/-- Witness for C10 at a concrete 30-byte (header-only) WAV response. -/
theorem run_tts_short_wav_markers_only_witness :
    (run_tts settings0 22050 (3 + 1) text0 env200short).frames =
      [Frame.TTSStartedFrame, Frame.TTSStoppedFrame] ∧
    (run_tts settings0 22050 (3 + 1) text0 env200short).pushed = [] :=
  run_tts_short_wav_markers_only settings0 22050 3 text0 env200short resp200short
    bytes30 rfl rfl rfl rfl rfl rfl (by decide)

end UpliftTTS
